import Mathlib

/-
Verification development for src/prim_ops.py: a catalog of 3-D neural-network
operation building blocks (BaseOp pipeline, ConvOps, SEConvOp, PoolingOp,
IdentityOp) and the OPS registry with its DownOps/UpOps/NormOps partitions.

The embedding is shallow:
 - object construction (the __init__ methods) becomes pure functions building
   an Operation record of configuration data;
 - BaseOp.forward becomes forwardLoop, an explicit fold over the ops token
   list with the same if/elif/else dispatch and the same raise on an
   unrecognized token (modelled as Except.error);
 - shape behaviour of the wrapped library layers (Conv3d, ConvTranspose3d,
   AvgPool3d, MaxPool3d, GroupNorm, Dropout3d, ReLU, the squeeze-excitation
   path) is given by forwardShape, using the library's published output-size
   formulas;
 - value behaviour is given over real-valued tensors (Tensor5); learnable
   convolution kernels and the stochastic dropout mask are abstracted as
   environment functions, while the squeeze-excitation gate, group
   normalization, ReLU and sigmoid are modelled numerically.
-/

set_option autoImplicit false

/-- Token string "weight", one of the recognized stage tokens of BaseOp. -/
def weightTok : String := "weight"

/-- Token string "norm". -/
def normTok : String := "norm"

/-- Token string "act". -/
def actTok : String := "act"

/-- Pool type string "avg". -/
def avgStr : String := "avg"

/-- Pool type string "max". -/
def maxStr : String := "max"

/-- The default ops order string of BaseOp, ConvOps and IdentityOp. -/
def wnaOrder : String := "weight_norm_act"

/-- The default ops order string of SEConvOp. -/
def wnOrder : String := "weight_norm"

/-- The default ops order string of PoolingOp. -/
def wOrder : String := "weight"

/-- Error message for PoolingOp's raise NotImplementedError. -/
def notImplementedMsg : String := "NotImplementedError"

/-- Error message for a missing registry key (raised at the caller in Python). -/
def keyMsg : String := "KeyError"

/-- Error message for a layer applied to a tensor of the wrong channel count. -/
def channelsMsg : String := "channel mismatch"

/-- Error message for the squeeze-excitation view with a mismatched element count. -/
def viewMsg : String := "view size mismatch"

/-- Error message for a convolution or pooling whose output size would be empty. -/
def shapeMsg : String := "invalid spatial size"

/-- Message of the exception raised by BaseOp.forward on an unrecognized token. -/
def unrecognizedMsg (op : String) : String := "Unrecognized op: " ++ op

/-- Helper of opsListOf: splits a character list at underscores, accumulating
the current (reversed) fragment, exactly like Python's str.split of one
separator character. -/
def splitUndAux (cur : List Char) : List Char → List String
  | [] => [String.mk cur.reverse]
  | c :: rest =>
    if c = '_' then String.mk cur.reverse :: splitUndAux [] rest
    else splitUndAux (c :: cur) rest

/-- Model of ops_order.split of the underscore character in BaseOp.__init__. -/
def opsListOf (ops_order : String) : List String := splitUndAux [] ops_order.data

/-- Shape of a five-dimensional tensor: batch, channel, depth, height, width. -/
structure Shape5 where
  batch : Nat
  channels : Nat
  depth : Nat
  height : Nat
  width : Nat
deriving DecidableEq

/-- Configuration of one Conv3d or ConvTranspose3d layer. The padding is an
integer because Python's floor division can in principle produce a negative
padding, which the library rejects at apply time. -/
structure ConvLayer where
  transposed : Bool
  in_channels : Nat
  out_channels : Nat
  kernel_size : Nat
  stride : Nat
  padding : Int
  dilation : Nat
  groups : Nat
deriving DecidableEq

/-- Configuration of one GroupNorm layer. -/
structure GroupNormCfg where
  num_groups : Nat
  num_channels : Nat
deriving DecidableEq

/-- Pool type of PoolingOp after a successful construction. -/
inductive PoolType : Type
  | avg
  | max
deriving DecidableEq

/-- The weight-transform of an operation, one variant per subtype of BaseOp:
a single convolution, a depthwise+pointwise pair, the squeeze-excitation
path (with its bottleneck hidden width and optional strided convolution),
a pooling layer, or the identity. -/
inductive WeightCall : Type
  | single (conv : ConvLayer)
  | depthSep (depth_conv point_conv : ConvLayer)
  | se (in_channels out_channels stride fc_hidden : Nat) (conv : Option ConvLayer)
  | pooling (kernel_size stride : Nat) (pool_type : PoolType)
  | idw
deriving DecidableEq

/-- Group count chosen by BaseOp.__init__ for GroupNorm. -/
def normGroups (out_channels : Nat) : Nat :=
  if out_channels % 16 ≠ 0 then 1 else out_channels / 16

/-- An operation as configured by the constructors: the fields assigned by
BaseOp.__init__ plus the subtype's weight-transform. -/
structure Operation where
  in_channels : Nat
  out_channels : Nat
  ops_list : List String
  norm : Option GroupNormCfg
  activation : Bool
  dropout_some : Bool
  w : WeightCall
deriving DecidableEq

/-- Model of BaseOp.__init__: splits the ops order, enables GroupNorm,
ReLU and Dropout3d according to the token list and the dropout rate. The
subtype's weight-transform is passed in since Lean has no inheritance. -/
def baseInit (in_channels out_channels : Nat) (dropout_rate : ℚ)
    (ops_order : String) (w : WeightCall) : Operation :=
  let ops_list := opsListOf ops_order
  { in_channels := in_channels
    out_channels := out_channels
    ops_list := ops_list
    norm :=
      if normTok ∈ ops_list then some ⟨normGroups out_channels, out_channels⟩
      else none
    activation := decide (actTok ∈ ops_list)
    dropout_some := decide (0 < dropout_rate)
    w := w }

/-- Python's padding formula of ConvOps and SEConvOp, with Python floor
division on integers. -/
def pad2 (dilation kernel_size stride : Int) : Int :=
  Int.fdiv (dilation * (kernel_size - 1) - stride + 1) 2

/-- Model of ConvOps.__init__. -/
def convOpsInit (in_channels out_channels kernel_size stride dilation : Nat)
    (use_transpose use_depthwise : Bool) (dropout_rate : ℚ)
    (ops_order : String) : Operation :=
  let padding : Int :=
    pad2 (dilation : Int) (kernel_size : Int) (stride : Int)
  let w :=
    if use_depthwise then
      WeightCall.depthSep
        ⟨use_transpose, in_channels, in_channels, kernel_size, stride, padding, 1, in_channels⟩
        ⟨false, in_channels, out_channels, 1, 1, 0, 1, 1⟩
    else
      WeightCall.single
        ⟨use_transpose, in_channels, out_channels, kernel_size, stride, padding, dilation, 1⟩
  baseInit in_channels out_channels dropout_rate ops_order w

/-- Model of SEConvOp.__init__: the bottleneck is Linear(in_channels, 1),
ReLU, Linear(1, out_channels), Sigmoid, so the hidden width is the literal 1;
with stride at least 2 a strided (possibly transposed) convolution is added,
otherwise the norm field set by BaseOp is overwritten with none. -/
def seConvInit (in_channels out_channels kernel_size stride dilation : Nat)
    (use_transpose : Bool) (dropout_rate : ℚ) (ops_order : String) : Operation :=
  let padding : Int :=
    pad2 (dilation : Int) (kernel_size : Int) (stride : Int)
  let conv : Option ConvLayer :=
    if 2 ≤ stride then
      some ⟨use_transpose, in_channels, out_channels, kernel_size, stride, padding, 1, 1⟩
    else none
  let base := baseInit in_channels out_channels dropout_rate ops_order
    (WeightCall.se in_channels out_channels stride 1 conv)
  if 2 ≤ stride then base else { base with norm := none }

/-- Model of PoolingOp.__init__: average or max pooling, any other pool type
raises NotImplementedError; the dropout rate is BaseOp's default 0. -/
def poolingInit (in_channels out_channels : Nat) (pool_type : String)
    (kernel_size stride : Nat) (ops_order : String) : Except String Operation :=
  if pool_type = avgStr then
    Except.ok (baseInit in_channels out_channels 0 ops_order
      (WeightCall.pooling kernel_size stride PoolType.avg))
  else if pool_type = maxStr then
    Except.ok (baseInit in_channels out_channels 0 ops_order
      (WeightCall.pooling kernel_size stride PoolType.max))
  else Except.error notImplementedMsg

/-- PoolingOp with its default keyword arguments kernel_size=2, stride=2 and
ops_order "weight", as the registry calls it. -/
def poolingInitDefault (in_channels out_channels : Nat) (pool_type : String) :
    Except String Operation :=
  poolingInit in_channels out_channels pool_type 2 2 wOrder

/-- Model of IdentityOp.__init__ (dropout rate is BaseOp's default 0). -/
def identityOpInit (in_channels out_channels : Nat) (ops_order : String) : Operation :=
  baseInit in_channels out_channels 0 ops_order WeightCall.idw

/-- The OPS registry: an insertion-ordered association list from operation
name to factory, one entry per line of the Python dict literal. Every
factory below is total except the pooling ones, so all return Except for a
uniform type. -/
def OPS : List (String × (Nat → Nat → Except String Operation)) :=
  [ ("identity", fun c _stride => Except.ok (identityOpInit c c wnaOrder)),
    ("se_conv", fun c _stride => Except.ok (seConvInit c c 3 1 1 false 0 wnOrder)),
    ("dil_conv", fun c _stride => Except.ok (convOpsInit c c 3 1 2 false false 0 wnaOrder)),
    ("dep_conv", fun c _stride => Except.ok (convOpsInit c c 3 1 1 false true 0 wnaOrder)),
    ("conv", fun c _stride => Except.ok (convOpsInit c c 3 1 1 false false 0 wnaOrder)),
    ("avg_pool", fun c _stride => poolingInitDefault c c avgStr),
    ("max_pool", fun c _stride => poolingInitDefault c c maxStr),
    ("down_se_conv", fun c _stride => Except.ok (seConvInit c c 3 2 1 false 0 wnOrder)),
    ("down_dil_conv", fun c _stride => Except.ok (convOpsInit c c 3 2 2 false false 0 wnaOrder)),
    ("down_dep_conv", fun c _stride => Except.ok (convOpsInit c c 3 2 1 false true 0 wnaOrder)),
    ("down_conv", fun c _stride => Except.ok (convOpsInit c c 3 2 1 false false 0 wnaOrder)),
    ("up_se_conv", fun c _stride => Except.ok (seConvInit c c 3 2 1 true 0 wnOrder)),
    ("up_dep_conv", fun c _stride => Except.ok (convOpsInit c c 3 2 1 true true 0 wnaOrder)),
    ("up_conv", fun c _stride => Except.ok (convOpsInit c c 3 2 1 true false 0 wnaOrder)),
    ("up_dil_conv", fun c _stride => Except.ok (convOpsInit c c 3 2 2 true false 0 wnaOrder)) ]

/-- The DownOps list of prim_ops.py. -/
def DownOps : List String :=
  ["avg_pool", "max_pool", "down_se_conv", "down_dil_conv", "down_dep_conv", "down_conv"]

/-- The UpOps list of prim_ops.py. -/
def UpOps : List String :=
  ["up_se_conv", "up_dep_conv", "up_conv", "up_dil_conv"]

/-- The NormOps list of prim_ops.py. -/
def NormOps : List String :=
  ["identity", "se_conv", "dil_conv", "dep_conv", "conv"]

/-- Dictionary access OPS followed by the factory call, as external callers
use the registry; a missing key is the caller-side KeyError. -/
def opsGet (name : String) (c stride : Nat) : Except String Operation :=
  match List.lookup name OPS with
  | some f => f c stride
  | none => Except.error keyMsg

/-- Application of an optional stage function (Python: a module or None). -/
def optApp {T : Type} (f : Option (T → T)) (x : T) : T :=
  match f with
  | some g => g x
  | none => x

/-- Application of an optional fallible stage function. -/
def optAppE {T : Type} (f : Option (T → Except String T)) (x : T) : Except String T :=
  match f with
  | some g => g x
  | none => Except.ok x

/-- Model of BaseOp.forward: iterate over the ops token list; the weight
branch applies dropout first (when configured) and then the subtype's
weight_call; the norm and act branches apply their module when it is not
None; any other token raises. The weight and norm stages may themselves
fail (shape errors of the wrapped layers), hence their Except codomain. -/
def forwardLoop {T : Type} (dropout : Option (T → T))
    (weight_call : T → Except String T) (norm : Option (T → Except String T))
    (activation : Option (T → T)) : List String → T → Except String T
  | [], x => Except.ok x
  | op :: rest, x =>
    if op = weightTok then
      match weight_call (optApp dropout x) with
      | Except.ok y => forwardLoop dropout weight_call norm activation rest y
      | Except.error e => Except.error e
    else if op = normTok then
      match optAppE norm x with
      | Except.ok y => forwardLoop dropout weight_call norm activation rest y
      | Except.error e => Except.error e
    else if op = actTok then
      forwardLoop dropout weight_call norm activation rest (optApp activation x)
    else Except.error (unrecognizedMsg op)

/-- Output length of one spatial dimension of Conv3d: the library formula
floor of (n + 2p - d(k-1) - 1)/s plus 1, defined when the stride is positive
and the output would be nonempty. -/
def conv3dOutDim (n k s p d : Nat) : Option Nat :=
  if 1 ≤ s ∧ d * (k - 1) + 1 ≤ n + 2 * p then
    some ((n + 2 * p - (d * (k - 1) + 1)) / s + 1)
  else none

/-- Output length of one spatial dimension of ConvTranspose3d with zero
output padding: (n-1)s - 2p + d(k-1) + 1, defined when the input dimension
is positive and the output would be nonempty. -/
def convT3dOutDim (n k s p d : Nat) : Option Nat :=
  if 1 ≤ n ∧ 2 * p + 1 ≤ (n - 1) * s + d * (k - 1) + 1 then
    some ((n - 1) * s + d * (k - 1) + 1 - 2 * p)
  else none

/-- Shape behaviour of one Conv3d or ConvTranspose3d layer: the channel
count must match the layer, the padding must be nonnegative, and each
spatial dimension is transformed by the library formula. -/
def convLayerShape (L : ConvLayer) (s : Shape5) : Except String Shape5 :=
  if 0 ≤ L.padding ∧ s.channels = L.in_channels then
    let p := L.padding.toNat
    let f := if L.transposed then convT3dOutDim else conv3dOutDim
    match f s.depth L.kernel_size L.stride p L.dilation,
        f s.height L.kernel_size L.stride p L.dilation,
        f s.width L.kernel_size L.stride p L.dilation with
    | some d2, some h2, some w2 =>
      Except.ok ⟨s.batch, L.out_channels, d2, h2, w2⟩
    | _, _, _ => Except.error shapeMsg
  else Except.error channelsMsg

/-- Shape behaviour of AvgPool3d and MaxPool3d with no padding: each spatial
dimension n becomes floor of (n - k)/s plus 1; channels are untouched. -/
def poolShape (k st : Nat) (s : Shape5) : Except String Shape5 :=
  if 1 ≤ st ∧ k ≤ s.depth ∧ k ≤ s.height ∧ k ≤ s.width then
    Except.ok ⟨s.batch, s.channels,
      (s.depth - k) / st + 1, (s.height - k) / st + 1, (s.width - k) / st + 1⟩
  else Except.error shapeMsg

/-- Shape behaviour of SEConvOp.weight_call: the adaptive average pool and
the first Linear need the input channel count to equal in_channels; the view
back to five dimensions needs batch times out_channels elements to fill
batch times channels slots; the gated product keeps the input shape, and
with stride at least 2 the subsequent convolution is applied to it. -/
def seShape (in_channels out_channels stride : Nat) (conv : Option ConvLayer)
    (s : Shape5) : Except String Shape5 :=
  if s.channels = in_channels then
    if s.batch * out_channels = s.batch * s.channels then
      if 2 ≤ stride then
        match conv with
        | some L => convLayerShape L s
        | none => Except.error shapeMsg
      else Except.ok s
    else Except.error viewMsg
  else Except.error channelsMsg

/-- Shape behaviour of each weight-transform variant. -/
def weightShape : WeightCall → Shape5 → Except String Shape5
  | WeightCall.single L, s => convLayerShape L s
  | WeightCall.depthSep dL pL, s =>
    match convLayerShape dL s with
    | Except.ok t => convLayerShape pL t
    | Except.error e => Except.error e
  | WeightCall.se i o st _fh conv, s => seShape i o st conv s
  | WeightCall.pooling k st _t, s => poolShape k st s
  | WeightCall.idw, s => Except.ok s

/-- Shape behaviour of GroupNorm: the channel count must match; the shape is
unchanged. -/
def normShape (cfg : GroupNormCfg) (s : Shape5) : Except String Shape5 :=
  if s.channels = cfg.num_channels then Except.ok s else Except.error channelsMsg

/-- Shape behaviour of a whole operation's apply: BaseOp.forward with the
shape semantics of each stage (Dropout3d and ReLU preserve shapes). -/
def forwardShape (op : Operation) : Shape5 → Except String Shape5 :=
  forwardLoop (if op.dropout_some then some (fun s => s) else none)
    (weightShape op.w)
    (Option.map (fun cfg s => normShape cfg s) op.norm)
    (if op.activation then some (fun s => s) else none)
    op.ops_list

/-- A five-dimensional tensor of real values, indexed batch, channel, depth,
height, width; the shape travels separately. -/
def Tensor5 : Type := Nat → Nat → Nat → Nat → Nat → ℝ

/-- Scalar rectified linear unit. -/
def reluR (t : ℝ) : ℝ := max t 0

/-- Pointwise ReLU on a tensor, the activation module of BaseOp. -/
def reluT (x : Tensor5) : Tensor5 := fun b c d h w => reluR (x b c d h w)

/-- Scalar logistic sigmoid. -/
noncomputable def sigmoidR (t : ℝ) : ℝ := 1 / (1 + Real.exp (-t))

/-- Sum of a function over the spatial grid D by H by W. -/
def sum3 (D H W : Nat) (f : Nat → Nat → Nat → ℝ) : ℝ :=
  Finset.sum (Finset.range D) (fun d =>
    Finset.sum (Finset.range H) (fun h =>
      Finset.sum (Finset.range W) (fun w => f d h w)))

/-- Learnable state of a GroupNorm layer (per-channel affine weights) plus
its epsilon constant. -/
structure GNLearn where
  gamma : Nat → ℝ
  beta : Nat → ℝ
  eps : ℝ

/-- Value behaviour of GroupNorm: per batch and group, subtract the group
mean, divide by the square root of the biased group variance plus epsilon,
and apply the per-channel affine transform. -/
noncomputable def groupNormVal (cfg : GroupNormCfg) (p : GNLearn) (S : Shape5)
    (x : Tensor5) : Tensor5 :=
  let cpg := cfg.num_channels / cfg.num_groups
  let cnt : ℝ := ((cpg * S.depth * S.height * S.width : Nat) : ℝ)
  let mean : Nat → Nat → ℝ := fun b g =>
    Finset.sum (Finset.range cpg)
      (fun i => sum3 S.depth S.height S.width (fun d h w => x b (g * cpg + i) d h w)) / cnt
  let varv : Nat → Nat → ℝ := fun b g =>
    Finset.sum (Finset.range cpg)
      (fun i => sum3 S.depth S.height S.width
        (fun d h w => (x b (g * cpg + i) d h w - mean b g) ^ 2)) / cnt
  fun b c d h w =>
    (x b c d h w - mean b (c / cpg)) / Real.sqrt (varv b (c / cpg) + p.eps)
      * p.gamma c + p.beta c

/-- Learnable state of the squeeze-excitation bottleneck: Linear(in, 1) has
weight row w1 and bias b1; Linear(1, out) has weight column w2 and bias b2. -/
structure SELearn where
  w1 : Nat → ℝ
  b1 : ℝ
  w2 : Nat → ℝ
  b2 : Nat → ℝ

/-- The squeeze-excitation gate for batch b and channel c: global average
pool each channel to one value, apply Linear(in_channels, 1), ReLU,
Linear(1, out_channels), Sigmoid. -/
noncomputable def seGate (in_channels : Nat) (p : SELearn) (S : Shape5)
    (x : Tensor5) (b c : Nat) : ℝ :=
  let spatialCnt : ℝ := ((S.depth * S.height * S.width : Nat) : ℝ)
  let y : Nat → ℝ := fun j =>
    sum3 S.depth S.height S.width (fun d h w => x b j d h w) / spatialCnt
  let hidden : ℝ :=
    reluR (Finset.sum (Finset.range in_channels) (fun j => p.w1 j * y j) + p.b1)
  sigmoidR (p.w2 c * hidden + p.b2 c)

/-- Value behaviour of SEConvOp.weight_call: multiply the input by the gate
channel-wise; with stride at least 2 the configured convolution (abstracted
by convEnv) is applied to the gated tensor. The none branch of the match is
unreachable for operations built by seConvInit. -/
noncomputable def seWeightVal (in_channels _out_channels stride : Nat)
    (conv : Option ConvLayer) (p : SELearn)
    (convEnv : ConvLayer → Tensor5 → Tensor5) (S : Shape5) (x : Tensor5) : Tensor5 :=
  let gated : Tensor5 := fun b c d h w => x b c d h w * seGate in_channels p S x b c
  if 2 ≤ stride then
    match conv with
    | some L => convEnv L gated
    | none => gated
  else gated

/-- Value behaviour of each weight-transform variant; the learnable
convolution and pooling kernels live in the environments convEnv and
poolEnv, the identity weight_call returns its input unchanged. -/
noncomputable def weightVal (w : WeightCall)
    (convEnv : ConvLayer → Tensor5 → Tensor5)
    (poolEnv : Nat → Nat → PoolType → Tensor5 → Tensor5)
    (seP : SELearn) (S : Shape5) (x : Tensor5) : Tensor5 :=
  match w with
  | WeightCall.single L => convEnv L x
  | WeightCall.depthSep dL pL => convEnv pL (convEnv dL x)
  | WeightCall.se i o st _fh conv => seWeightVal i o st conv seP convEnv S x
  | WeightCall.pooling k st t => poolEnv k st t x
  | WeightCall.idw => x

/-- Value behaviour of a whole operation's apply: BaseOp.forward with the
value semantics of each stage; the stochastic dropout mask is abstracted by
dropEnv and is only applied when the operation was configured with a
positive dropout rate. -/
noncomputable def valueForward (op : Operation)
    (convEnv : ConvLayer → Tensor5 → Tensor5)
    (poolEnv : Nat → Nat → PoolType → Tensor5 → Tensor5)
    (seP : SELearn) (gn : GNLearn) (dropEnv : Tensor5 → Tensor5)
    (S : Shape5) : Tensor5 → Except String Tensor5 :=
  forwardLoop (if op.dropout_some then some dropEnv else none)
    (fun x => Except.ok (weightVal op.w convEnv poolEnv seP S x))
    (Option.map (fun cfg x => Except.ok (groupNormVal cfg gn S x)) op.norm)
    (if op.activation then some reluT else none)
    op.ops_list

/-- Sequencing of fallible stage results, used to state pipeline lemmas. -/
def exBind {A B : Type} (e : Except String A) (f : A → Except String B) :
    Except String B :=
  match e with
  | Except.ok y => f y
  | Except.error m => Except.error m

@[simp] theorem exBind_ok {A B : Type} (y : A) (f : A → Except String B) :
    exBind (Except.ok y) f = f y := rfl

@[simp] theorem exBind_error {A B : Type} (m : String) (f : A → Except String B) :
    exBind (Except.error m) f = Except.error m := rfl

@[simp] theorem optApp_some {T : Type} (g : T → T) (x : T) :
    optApp (some g) x = g x := rfl

@[simp] theorem optApp_none {T : Type} (x : T) : optApp (none : Option (T → T)) x = x := rfl

@[simp] theorem optAppE_some {T : Type} (g : T → Except String T) (x : T) :
    optAppE (some g) x = g x := rfl

@[simp] theorem optAppE_none {T : Type} (x : T) :
    optAppE (none : Option (T → Except String T)) x = Except.ok x := rfl

@[simp] theorem opsListOf_wna : opsListOf wnaOrder = [weightTok, normTok, actTok] := rfl

@[simp] theorem opsListOf_wn : opsListOf wnOrder = [weightTok, normTok] := rfl

@[simp] theorem opsListOf_w : opsListOf wOrder = [weightTok] := rfl

@[simp] theorem forwardLoop_nil {T : Type} (d : Option (T → T))
    (wc : T → Except String T) (nm : Option (T → Except String T))
    (a : Option (T → T)) (x : T) : forwardLoop d wc nm a [] x = Except.ok x := rfl

theorem forwardLoop_weight_cons {T : Type} (d : Option (T → T))
    (wc : T → Except String T) (nm : Option (T → Except String T))
    (a : Option (T → T)) (rest : List String) (x : T) :
    forwardLoop d wc nm a (weightTok :: rest) x =
      exBind (wc (optApp d x)) (forwardLoop d wc nm a rest) := by
  cases h : wc (optApp d x) <;> simp [forwardLoop, h, exBind]

theorem forwardLoop_norm_cons {T : Type} (d : Option (T → T))
    (wc : T → Except String T) (nm : Option (T → Except String T))
    (a : Option (T → T)) (rest : List String) (x : T) :
    forwardLoop d wc nm a (normTok :: rest) x =
      exBind (optAppE nm x) (forwardLoop d wc nm a rest) := by
  have hne : normTok ≠ weightTok := by decide
  cases h : optAppE nm x <;> simp [forwardLoop, hne, h, exBind]

theorem forwardLoop_act_cons {T : Type} (d : Option (T → T))
    (wc : T → Except String T) (nm : Option (T → Except String T))
    (a : Option (T → T)) (rest : List String) (x : T) :
    forwardLoop d wc nm a (actTok :: rest) x =
      forwardLoop d wc nm a rest (optApp a x) := by
  have h1 : actTok ≠ weightTok := by decide
  have h2 : actTok ≠ normTok := by decide
  simp [forwardLoop, h1, h2]

theorem forwardLoop_bad_cons {T : Type} (d : Option (T → T))
    (wc : T → Except String T) (nm : Option (T → Except String T))
    (a : Option (T → T)) (op : String) (rest : List String) (x : T)
    (h1 : op ≠ weightTok) (h2 : op ≠ normTok) (h3 : op ≠ actTok) :
    forwardLoop d wc nm a (op :: rest) x = Except.error (unrecognizedMsg op) := by
  simp [forwardLoop, h1, h2, h3]

@[simp] theorem baseInit_in_channels (i o : Nat) (r : ℚ) (oo : String) (w : WeightCall) :
    (baseInit i o r oo w).in_channels = i := rfl

@[simp] theorem baseInit_out_channels (i o : Nat) (r : ℚ) (oo : String) (w : WeightCall) :
    (baseInit i o r oo w).out_channels = o := rfl

@[simp] theorem baseInit_ops_list (i o : Nat) (r : ℚ) (oo : String) (w : WeightCall) :
    (baseInit i o r oo w).ops_list = opsListOf oo := rfl

@[simp] theorem baseInit_norm (i o : Nat) (r : ℚ) (oo : String) (w : WeightCall) :
    (baseInit i o r oo w).norm =
      (if normTok ∈ opsListOf oo then some ⟨normGroups o, o⟩ else none) := rfl

@[simp] theorem baseInit_activation (i o : Nat) (r : ℚ) (oo : String) (w : WeightCall) :
    (baseInit i o r oo w).activation = decide (actTok ∈ opsListOf oo) := rfl

@[simp] theorem baseInit_dropout_some (i o : Nat) (r : ℚ) (oo : String) (w : WeightCall) :
    (baseInit i o r oo w).dropout_some = decide (0 < r) := rfl

@[simp] theorem baseInit_w (i o : Nat) (r : ℚ) (oo : String) (w : WeightCall) :
    (baseInit i o r oo w).w = w := rfl

theorem exBind_pure {T : Type} (e : Except String T) : exBind e Except.ok = e := by
  cases e <;> rfl

theorem exBind_congr {A B : Type} (e : Except String A) (f g : A → Except String B)
    (h : ∀ y, f y = g y) : exBind e f = exBind e g := by
  cases e <;> simp [exBind, h]

theorem optApp_id_if {T : Type} (b : Bool) (x : T) :
    optApp (if b then some (fun t : T => t) else none) x = x := by
  cases b <;> simp

/-- Shape behaviour of the three-stage pipeline weight, norm, act: the
dropout and activation stages keep shapes, so apply maps a shape through the
weight-transform and then the norm check. -/
theorem forwardShape_wna (op : Operation)
    (hl : op.ops_list = [weightTok, normTok, actTok]) (s : Shape5) :
    forwardShape op s = exBind (weightShape op.w s)
      (optAppE (Option.map (fun cfg t => normShape cfg t) op.norm)) := by
  unfold forwardShape
  rw [hl, forwardLoop_weight_cons, optApp_id_if]
  refine exBind_congr _ _ _ (fun y => ?_)
  rw [forwardLoop_norm_cons]
  have h2 : ∀ z, forwardLoop (if op.dropout_some then some (fun s : Shape5 => s) else none)
      (weightShape op.w) (Option.map (fun cfg t => normShape cfg t) op.norm)
      (if op.activation then some (fun s : Shape5 => s) else none) [actTok] z = Except.ok z := by
    intro z
    rw [forwardLoop_act_cons, optApp_id_if]
    simp
  calc exBind (optAppE (Option.map (fun cfg t => normShape cfg t) op.norm) y) _
      = exBind (optAppE (Option.map (fun cfg t => normShape cfg t) op.norm) y) Except.ok :=
        exBind_congr _ _ _ h2
    _ = optAppE (Option.map (fun cfg t => normShape cfg t) op.norm) y := exBind_pure _

/-- Shape behaviour of the two-stage pipeline weight, norm. -/
theorem forwardShape_wn (op : Operation)
    (hl : op.ops_list = [weightTok, normTok]) (s : Shape5) :
    forwardShape op s = exBind (weightShape op.w s)
      (optAppE (Option.map (fun cfg t => normShape cfg t) op.norm)) := by
  unfold forwardShape
  rw [hl, forwardLoop_weight_cons, optApp_id_if]
  refine exBind_congr _ _ _ (fun y => ?_)
  rw [forwardLoop_norm_cons]
  exact exBind_pure _

/-- Shape behaviour of the one-stage pipeline weight. -/
theorem forwardShape_w (op : Operation)
    (hl : op.ops_list = [weightTok]) (s : Shape5) :
    forwardShape op s = weightShape op.w s := by
  unfold forwardShape
  rw [hl, forwardLoop_weight_cons, optApp_id_if]
  exact exBind_pure _

/-- A run of BaseOp.forward over recognized tokens only returns a fixed
point of every stage unchanged. -/
theorem forwardLoop_fix {T : Type} (d : Option (T → T)) (wc : T → Except String T)
    (nm : Option (T → Except String T)) (a : Option (T → T)) (s : T)
    (hdrop : optApp d s = s) (hwc : wc s = Except.ok s)
    (hnm : optAppE nm s = Except.ok s) (hact : optApp a s = s) :
    ∀ l : List String, (∀ t ∈ l, t = weightTok ∨ t = normTok ∨ t = actTok) →
      forwardLoop d wc nm a l s = Except.ok s := by
  intro l
  induction l with
  | nil => intro _; simp
  | cons u tl ih =>
    intro hmem
    rcases hmem u (by simp) with h | h | h <;> subst h
    · rw [forwardLoop_weight_cons, hdrop, hwc, exBind_ok]
      exact ih (fun t ht => hmem t (by simp [ht]))
    · rw [forwardLoop_norm_cons, hnm, exBind_ok]
      exact ih (fun t ht => hmem t (by simp [ht]))
    · rw [forwardLoop_act_cons, hact]
      exact ih (fun t ht => hmem t (by simp [ht]))

/-- When the weight and norm stages never fail, a token list containing an
unrecognized token makes BaseOp.forward raise. -/
theorem forwardLoop_error_of_bad {T : Type} (d : Option (T → T))
    (wc : T → Except String T) (nm : Option (T → Except String T))
    (a : Option (T → T)) (hwc : ∀ y, ∃ z, wc y = Except.ok z)
    (hnm : ∀ y, ∃ z, optAppE nm y = Except.ok z) :
    ∀ (l : List String) (t : String), t ∈ l → t ≠ weightTok → t ≠ normTok →
      t ≠ actTok → ∀ x, ∃ m, forwardLoop d wc nm a l x = Except.error m := by
  intro l
  induction l with
  | nil => intro t ht; exact absurd ht (List.not_mem_nil t)
  | cons u tl ih =>
    intro t ht h1 h2 h3 x
    rcases List.mem_cons.mp ht with rfl | htl
    · exact ⟨unrecognizedMsg t, forwardLoop_bad_cons d wc nm a t tl x h1 h2 h3⟩
    · by_cases hu1 : u = weightTok
      · subst hu1
        obtain ⟨z, hz⟩ := hwc (optApp d x)
        rw [forwardLoop_weight_cons, hz, exBind_ok]
        exact ih t htl h1 h2 h3 z
      · by_cases hu2 : u = normTok
        · subst hu2
          obtain ⟨z, hz⟩ := hnm x
          rw [forwardLoop_norm_cons, hz, exBind_ok]
          exact ih t htl h1 h2 h3 z
        · by_cases hu3 : u = actTok
          · subst hu3
            rw [forwardLoop_act_cons]
            exact ih t htl h1 h2 h3 (optApp a x)
          · exact ⟨unrecognizedMsg u, forwardLoop_bad_cons d wc nm a u tl x hu1 hu2 hu3⟩

@[simp] theorem weightShape_single (L : ConvLayer) (s : Shape5) :
    weightShape (WeightCall.single L) s = convLayerShape L s := rfl

theorem weightShape_depthSep (dL pL : ConvLayer) (s : Shape5) :
    weightShape (WeightCall.depthSep dL pL) s =
      exBind (convLayerShape dL s) (convLayerShape pL) := by
  cases h : convLayerShape dL s <;> simp [weightShape, h, exBind]

@[simp] theorem weightShape_se (i o st fh : Nat) (conv : Option ConvLayer) (s : Shape5) :
    weightShape (WeightCall.se i o st fh conv) s = seShape i o st conv s := rfl

@[simp] theorem weightShape_pooling (k st : Nat) (t : PoolType) (s : Shape5) :
    weightShape (WeightCall.pooling k st t) s = poolShape k st s := rfl

@[simp] theorem weightShape_idw (s : Shape5) :
    weightShape WeightCall.idw s = Except.ok s := rfl

theorem normShape_ok (cfg : GroupNormCfg) (s : Shape5)
    (h : s.channels = cfg.num_channels) : normShape cfg s = Except.ok s := by
  simp [normShape, h]

@[simp] theorem pad2_one_three_one : pad2 1 3 1 = 1 := by decide

@[simp] theorem pad2_two_three_one : pad2 2 3 1 = 2 := by decide

@[simp] theorem pad2_one_three_two : pad2 1 3 2 = 0 := by decide

@[simp] theorem pad2_two_three_two : pad2 2 3 2 = 1 := by decide

theorem conv3dOutDim_same (n : Nat) (h : 1 ≤ n) : conv3dOutDim n 3 1 1 1 = some n := by
  unfold conv3dOutDim
  rw [if_pos (by omega)]
  simp only [Option.some.injEq]
  omega

theorem conv3dOutDim_dil_same (n : Nat) (h : 1 ≤ n) : conv3dOutDim n 3 1 2 2 = some n := by
  unfold conv3dOutDim
  rw [if_pos (by omega)]
  simp only [Option.some.injEq]
  omega

theorem conv3dOutDim_point (n : Nat) (h : 1 ≤ n) : conv3dOutDim n 1 1 0 1 = some n := by
  unfold conv3dOutDim
  rw [if_pos (by omega)]
  simp only [Option.some.injEq]
  omega

theorem conv3dOutDim_down (n : Nat) (h : 3 ≤ n) :
    conv3dOutDim n 3 2 0 1 = some ((n - 1) / 2) := by
  unfold conv3dOutDim
  rw [if_pos (by omega)]
  simp only [Option.some.injEq]
  omega

theorem conv3dOutDim_down_dil (n : Nat) (h : 3 ≤ n) :
    conv3dOutDim n 3 2 1 2 = some ((n - 1) / 2) := by
  unfold conv3dOutDim
  rw [if_pos (by omega)]
  simp only [Option.some.injEq]
  omega

theorem convT3dOutDim_up (n : Nat) (h : 1 ≤ n) :
    convT3dOutDim n 3 2 0 1 = some (2 * n + 1) := by
  unfold convT3dOutDim
  rw [if_pos (by omega)]
  simp only [Option.some.injEq]
  omega

theorem convT3dOutDim_up_dil (n : Nat) (h : 1 ≤ n) :
    convT3dOutDim n 3 2 1 2 = some (2 * n + 1) := by
  unfold convT3dOutDim
  rw [if_pos (by omega)]
  simp only [Option.some.injEq]
  omega

theorem convLayerShape_ok (L : ConvLayer) (s : Shape5) (d2 h2 w2 : Nat)
    (hp : 0 ≤ L.padding) (hc : s.channels = L.in_channels)
    (hd : (if L.transposed then convT3dOutDim else conv3dOutDim)
      s.depth L.kernel_size L.stride L.padding.toNat L.dilation = some d2)
    (hh : (if L.transposed then convT3dOutDim else conv3dOutDim)
      s.height L.kernel_size L.stride L.padding.toNat L.dilation = some h2)
    (hw : (if L.transposed then convT3dOutDim else conv3dOutDim)
      s.width L.kernel_size L.stride L.padding.toNat L.dilation = some w2) :
    convLayerShape L s = Except.ok ⟨s.batch, L.out_channels, d2, h2, w2⟩ := by
  unfold convLayerShape
  rw [if_pos ⟨hp, hc⟩]
  simp only [hd, hh, hw]

theorem seShape_stride1 (i o st : Nat) (hst : st < 2) (conv : Option ConvLayer)
    (s : Shape5) (hc : s.channels = i) (hv : s.batch * o = s.batch * s.channels) :
    seShape i o st conv s = Except.ok s := by
  unfold seShape
  rw [if_pos hc, if_pos hv, if_neg (by omega)]

theorem seShape_stride2 (i o st : Nat) (hst : 2 ≤ st) (L : ConvLayer)
    (s : Shape5) (hc : s.channels = i) (hv : s.batch * o = s.batch * s.channels) :
    seShape i o st (some L) s = convLayerShape L s := by
  unfold seShape
  rw [if_pos hc, if_pos hv, if_pos hst]

theorem poolShape_eval (k st : Nat) (s : Shape5)
    (h : 1 ≤ st ∧ k ≤ s.depth ∧ k ≤ s.height ∧ k ≤ s.width) :
    poolShape k st s = Except.ok ⟨s.batch, s.channels,
      (s.depth - k) / st + 1, (s.height - k) / st + 1, (s.width - k) / st + 1⟩ := by
  unfold poolShape
  rw [if_pos h]

/-- Shape of apply for the identity registry entry: unchanged. -/
theorem shapeIdentity (c b D H W : Nat) :
    forwardShape (identityOpInit c c wnaOrder) ⟨b, c, D, H, W⟩
      = Except.ok ⟨b, c, D, H, W⟩ := by
  rw [forwardShape_wna _ (by rfl)]
  rw [show (identityOpInit c c wnaOrder).w = WeightCall.idw from rfl]
  rw [show (identityOpInit c c wnaOrder).norm = some ⟨normGroups c, c⟩ from rfl]
  simp [normShape]

/-- Shape of apply for the se_conv registry entry: unchanged (stride 1 and
the norm stage overridden to None). -/
theorem shapeSeConv (c b D H W : Nat) :
    forwardShape (seConvInit c c 3 1 1 false 0 wnOrder) ⟨b, c, D, H, W⟩
      = Except.ok ⟨b, c, D, H, W⟩ := by
  rw [forwardShape_wn _ (by rfl)]
  rw [show (seConvInit c c 3 1 1 false 0 wnOrder).w = WeightCall.se c c 1 1 none from rfl]
  rw [show (seConvInit c c 3 1 1 false 0 wnOrder).norm = none from rfl]
  rw [weightShape_se, seShape_stride1 c c 1 (by omega) none _ rfl rfl]
  simp

/-- Shape of apply for the conv registry entry: unchanged. -/
theorem shapeConv (c b D H W : Nat) (hD : 1 ≤ D) (hH : 1 ≤ H) (hW : 1 ≤ W) :
    forwardShape (convOpsInit c c 3 1 1 false false 0 wnaOrder) ⟨b, c, D, H, W⟩
      = Except.ok ⟨b, c, D, H, W⟩ := by
  rw [forwardShape_wna _ (by rfl)]
  rw [show (convOpsInit c c 3 1 1 false false 0 wnaOrder).w
      = WeightCall.single ⟨false, c, c, 3, 1, 1, 1, 1⟩ from rfl]
  rw [show (convOpsInit c c 3 1 1 false false 0 wnaOrder).norm
      = some ⟨normGroups c, c⟩ from rfl]
  rw [weightShape_single,
    convLayerShape_ok _ _ D H W (by norm_num) rfl
      (by simpa using conv3dOutDim_same D hD)
      (by simpa using conv3dOutDim_same H hH)
      (by simpa using conv3dOutDim_same W hW)]
  simp [normShape]

/-- Shape of apply for the dil_conv registry entry: unchanged. -/
theorem shapeDilConv (c b D H W : Nat) (hD : 1 ≤ D) (hH : 1 ≤ H) (hW : 1 ≤ W) :
    forwardShape (convOpsInit c c 3 1 2 false false 0 wnaOrder) ⟨b, c, D, H, W⟩
      = Except.ok ⟨b, c, D, H, W⟩ := by
  rw [forwardShape_wna _ (by rfl)]
  rw [show (convOpsInit c c 3 1 2 false false 0 wnaOrder).w
      = WeightCall.single ⟨false, c, c, 3, 1, 2, 2, 1⟩ from rfl]
  rw [show (convOpsInit c c 3 1 2 false false 0 wnaOrder).norm
      = some ⟨normGroups c, c⟩ from rfl]
  rw [weightShape_single,
    convLayerShape_ok _ _ D H W (by norm_num) rfl
      (by simpa using conv3dOutDim_dil_same D hD)
      (by simpa using conv3dOutDim_dil_same H hH)
      (by simpa using conv3dOutDim_dil_same W hW)]
  simp [normShape]

/-- Shape of apply for the dep_conv registry entry: unchanged. -/
theorem shapeDepConv (c b D H W : Nat) (hD : 1 ≤ D) (hH : 1 ≤ H) (hW : 1 ≤ W) :
    forwardShape (convOpsInit c c 3 1 1 false true 0 wnaOrder) ⟨b, c, D, H, W⟩
      = Except.ok ⟨b, c, D, H, W⟩ := by
  rw [forwardShape_wna _ (by rfl)]
  rw [show (convOpsInit c c 3 1 1 false true 0 wnaOrder).w
      = WeightCall.depthSep ⟨false, c, c, 3, 1, 1, 1, c⟩ ⟨false, c, c, 1, 1, 0, 1, 1⟩ from rfl]
  rw [show (convOpsInit c c 3 1 1 false true 0 wnaOrder).norm
      = some ⟨normGroups c, c⟩ from rfl]
  rw [weightShape_depthSep,
    convLayerShape_ok _ _ D H W (by norm_num) rfl
      (by simpa using conv3dOutDim_same D hD)
      (by simpa using conv3dOutDim_same H hH)
      (by simpa using conv3dOutDim_same W hW)]
  simp only [exBind_ok]
  rw [convLayerShape_ok _ _ D H W (by norm_num) rfl
      (by simpa using conv3dOutDim_point D hD)
      (by simpa using conv3dOutDim_point H hH)
      (by simpa using conv3dOutDim_point W hW)]
  simp [normShape]

/-- Shape of apply for the avg_pool registry entry: each spatial dimension is
floor-divided by 2. -/
theorem shapeAvgPool (c b D H W : Nat) (hD : 2 ≤ D) (hH : 2 ≤ H) (hW : 2 ≤ W) :
    exBind (poolingInitDefault c c avgStr)
      (fun op => forwardShape op ⟨b, c, D, H, W⟩)
      = Except.ok ⟨b, c, D / 2, H / 2, W / 2⟩ := by
  rw [show poolingInitDefault c c avgStr
      = Except.ok (baseInit c c 0 wOrder (WeightCall.pooling 2 2 PoolType.avg)) from rfl]
  rw [exBind_ok, forwardShape_w _ (by rfl)]
  rw [show (baseInit c c 0 wOrder (WeightCall.pooling 2 2 PoolType.avg)).w
      = WeightCall.pooling 2 2 PoolType.avg from rfl]
  rw [weightShape_pooling, poolShape_eval 2 2 _ (by exact ⟨by omega, hD, hH, hW⟩)]
  simp only [Except.ok.injEq, Shape5.mk.injEq, true_and]
  omega

/-- Shape of apply for the max_pool registry entry: each spatial dimension is
floor-divided by 2. -/
theorem shapeMaxPool (c b D H W : Nat) (hD : 2 ≤ D) (hH : 2 ≤ H) (hW : 2 ≤ W) :
    exBind (poolingInitDefault c c maxStr)
      (fun op => forwardShape op ⟨b, c, D, H, W⟩)
      = Except.ok ⟨b, c, D / 2, H / 2, W / 2⟩ := by
  rw [show poolingInitDefault c c maxStr
      = Except.ok (baseInit c c 0 wOrder (WeightCall.pooling 2 2 PoolType.max)) from rfl]
  rw [exBind_ok, forwardShape_w _ (by rfl)]
  rw [show (baseInit c c 0 wOrder (WeightCall.pooling 2 2 PoolType.max)).w
      = WeightCall.pooling 2 2 PoolType.max from rfl]
  rw [weightShape_pooling, poolShape_eval 2 2 _ (by exact ⟨by omega, hD, hH, hW⟩)]
  simp only [Except.ok.injEq, Shape5.mk.injEq, true_and]
  omega

/-- Shape of apply for the down_conv registry entry: each spatial dimension n
becomes (n - 1) / 2, not n / 2. -/
theorem shapeDownConv (c b D H W : Nat) (hD : 3 ≤ D) (hH : 3 ≤ H) (hW : 3 ≤ W) :
    forwardShape (convOpsInit c c 3 2 1 false false 0 wnaOrder) ⟨b, c, D, H, W⟩
      = Except.ok ⟨b, c, (D - 1) / 2, (H - 1) / 2, (W - 1) / 2⟩ := by
  rw [forwardShape_wna _ (by rfl)]
  rw [show (convOpsInit c c 3 2 1 false false 0 wnaOrder).w
      = WeightCall.single ⟨false, c, c, 3, 2, 0, 1, 1⟩ from rfl]
  rw [show (convOpsInit c c 3 2 1 false false 0 wnaOrder).norm
      = some ⟨normGroups c, c⟩ from rfl]
  rw [weightShape_single,
    convLayerShape_ok _ _ ((D - 1) / 2) ((H - 1) / 2) ((W - 1) / 2) (by norm_num) rfl
      (by simpa using conv3dOutDim_down D hD)
      (by simpa using conv3dOutDim_down H hH)
      (by simpa using conv3dOutDim_down W hW)]
  simp [normShape]

/-- Shape of apply for the down_dil_conv registry entry: each spatial
dimension n becomes (n - 1) / 2. -/
theorem shapeDownDilConv (c b D H W : Nat) (hD : 3 ≤ D) (hH : 3 ≤ H) (hW : 3 ≤ W) :
    forwardShape (convOpsInit c c 3 2 2 false false 0 wnaOrder) ⟨b, c, D, H, W⟩
      = Except.ok ⟨b, c, (D - 1) / 2, (H - 1) / 2, (W - 1) / 2⟩ := by
  rw [forwardShape_wna _ (by rfl)]
  rw [show (convOpsInit c c 3 2 2 false false 0 wnaOrder).w
      = WeightCall.single ⟨false, c, c, 3, 2, 1, 2, 1⟩ from rfl]
  rw [show (convOpsInit c c 3 2 2 false false 0 wnaOrder).norm
      = some ⟨normGroups c, c⟩ from rfl]
  rw [weightShape_single,
    convLayerShape_ok _ _ ((D - 1) / 2) ((H - 1) / 2) ((W - 1) / 2) (by norm_num) rfl
      (by simpa using conv3dOutDim_down_dil D hD)
      (by simpa using conv3dOutDim_down_dil H hH)
      (by simpa using conv3dOutDim_down_dil W hW)]
  simp [normShape]

/-- Shape of apply for the down_dep_conv registry entry: each spatial
dimension n becomes (n - 1) / 2. -/
theorem shapeDownDepConv (c b D H W : Nat) (hD : 3 ≤ D) (hH : 3 ≤ H) (hW : 3 ≤ W) :
    forwardShape (convOpsInit c c 3 2 1 false true 0 wnaOrder) ⟨b, c, D, H, W⟩
      = Except.ok ⟨b, c, (D - 1) / 2, (H - 1) / 2, (W - 1) / 2⟩ := by
  rw [forwardShape_wna _ (by rfl)]
  rw [show (convOpsInit c c 3 2 1 false true 0 wnaOrder).w
      = WeightCall.depthSep ⟨false, c, c, 3, 2, 0, 1, c⟩ ⟨false, c, c, 1, 1, 0, 1, 1⟩ from rfl]
  rw [show (convOpsInit c c 3 2 1 false true 0 wnaOrder).norm
      = some ⟨normGroups c, c⟩ from rfl]
  rw [weightShape_depthSep,
    convLayerShape_ok _ _ ((D - 1) / 2) ((H - 1) / 2) ((W - 1) / 2) (by norm_num) rfl
      (by simpa using conv3dOutDim_down D hD)
      (by simpa using conv3dOutDim_down H hH)
      (by simpa using conv3dOutDim_down W hW)]
  simp only [exBind_ok]
  rw [convLayerShape_ok _ _ ((D - 1) / 2) ((H - 1) / 2) ((W - 1) / 2) (by norm_num) rfl
      (by simpa using conv3dOutDim_point ((D - 1) / 2) (by omega))
      (by simpa using conv3dOutDim_point ((H - 1) / 2) (by omega))
      (by simpa using conv3dOutDim_point ((W - 1) / 2) (by omega))]
  simp [normShape]

/-- Shape of apply for the down_se_conv registry entry: each spatial
dimension n becomes (n - 1) / 2. -/
theorem shapeDownSeConv (c b D H W : Nat) (hD : 3 ≤ D) (hH : 3 ≤ H) (hW : 3 ≤ W) :
    forwardShape (seConvInit c c 3 2 1 false 0 wnOrder) ⟨b, c, D, H, W⟩
      = Except.ok ⟨b, c, (D - 1) / 2, (H - 1) / 2, (W - 1) / 2⟩ := by
  rw [forwardShape_wn _ (by rfl)]
  rw [show (seConvInit c c 3 2 1 false 0 wnOrder).w
      = WeightCall.se c c 2 1 (some ⟨false, c, c, 3, 2, 0, 1, 1⟩) from rfl]
  rw [show (seConvInit c c 3 2 1 false 0 wnOrder).norm
      = some ⟨normGroups c, c⟩ from rfl]
  rw [weightShape_se, seShape_stride2 c c 2 (by omega) _ _ rfl rfl]
  rw [convLayerShape_ok _ _ ((D - 1) / 2) ((H - 1) / 2) ((W - 1) / 2) (by norm_num) rfl
      (by simpa using conv3dOutDim_down D hD)
      (by simpa using conv3dOutDim_down H hH)
      (by simpa using conv3dOutDim_down W hW)]
  simp [normShape]

/-- Shape of apply for the up_conv registry entry: each spatial dimension n
becomes 2n + 1, not 2n. -/
theorem shapeUpConv (c b D H W : Nat) (hD : 1 ≤ D) (hH : 1 ≤ H) (hW : 1 ≤ W) :
    forwardShape (convOpsInit c c 3 2 1 true false 0 wnaOrder) ⟨b, c, D, H, W⟩
      = Except.ok ⟨b, c, 2 * D + 1, 2 * H + 1, 2 * W + 1⟩ := by
  rw [forwardShape_wna _ (by rfl)]
  rw [show (convOpsInit c c 3 2 1 true false 0 wnaOrder).w
      = WeightCall.single ⟨true, c, c, 3, 2, 0, 1, 1⟩ from rfl]
  rw [show (convOpsInit c c 3 2 1 true false 0 wnaOrder).norm
      = some ⟨normGroups c, c⟩ from rfl]
  rw [weightShape_single,
    convLayerShape_ok _ _ (2 * D + 1) (2 * H + 1) (2 * W + 1) (by norm_num) rfl
      (by simpa using convT3dOutDim_up D hD)
      (by simpa using convT3dOutDim_up H hH)
      (by simpa using convT3dOutDim_up W hW)]
  simp [normShape]

/-- Shape of apply for the up_dil_conv registry entry: each spatial
dimension n becomes 2n + 1. -/
theorem shapeUpDilConv (c b D H W : Nat) (hD : 1 ≤ D) (hH : 1 ≤ H) (hW : 1 ≤ W) :
    forwardShape (convOpsInit c c 3 2 2 true false 0 wnaOrder) ⟨b, c, D, H, W⟩
      = Except.ok ⟨b, c, 2 * D + 1, 2 * H + 1, 2 * W + 1⟩ := by
  rw [forwardShape_wna _ (by rfl)]
  rw [show (convOpsInit c c 3 2 2 true false 0 wnaOrder).w
      = WeightCall.single ⟨true, c, c, 3, 2, 1, 2, 1⟩ from rfl]
  rw [show (convOpsInit c c 3 2 2 true false 0 wnaOrder).norm
      = some ⟨normGroups c, c⟩ from rfl]
  rw [weightShape_single,
    convLayerShape_ok _ _ (2 * D + 1) (2 * H + 1) (2 * W + 1) (by norm_num) rfl
      (by simpa using convT3dOutDim_up_dil D hD)
      (by simpa using convT3dOutDim_up_dil H hH)
      (by simpa using convT3dOutDim_up_dil W hW)]
  simp [normShape]

/-- Shape of apply for the up_dep_conv registry entry: each spatial
dimension n becomes 2n + 1. -/
theorem shapeUpDepConv (c b D H W : Nat) (hD : 1 ≤ D) (hH : 1 ≤ H) (hW : 1 ≤ W) :
    forwardShape (convOpsInit c c 3 2 1 true true 0 wnaOrder) ⟨b, c, D, H, W⟩
      = Except.ok ⟨b, c, 2 * D + 1, 2 * H + 1, 2 * W + 1⟩ := by
  rw [forwardShape_wna _ (by rfl)]
  rw [show (convOpsInit c c 3 2 1 true true 0 wnaOrder).w
      = WeightCall.depthSep ⟨true, c, c, 3, 2, 0, 1, c⟩ ⟨false, c, c, 1, 1, 0, 1, 1⟩ from rfl]
  rw [show (convOpsInit c c 3 2 1 true true 0 wnaOrder).norm
      = some ⟨normGroups c, c⟩ from rfl]
  rw [weightShape_depthSep,
    convLayerShape_ok _ _ (2 * D + 1) (2 * H + 1) (2 * W + 1) (by norm_num) rfl
      (by simpa using convT3dOutDim_up D hD)
      (by simpa using convT3dOutDim_up H hH)
      (by simpa using convT3dOutDim_up W hW)]
  simp only [exBind_ok]
  rw [convLayerShape_ok _ _ (2 * D + 1) (2 * H + 1) (2 * W + 1) (by norm_num) rfl
      (by simpa using conv3dOutDim_point (2 * D + 1) (by omega))
      (by simpa using conv3dOutDim_point (2 * H + 1) (by omega))
      (by simpa using conv3dOutDim_point (2 * W + 1) (by omega))]
  simp [normShape]

/-- Shape of apply for the up_se_conv registry entry: each spatial dimension
n becomes 2n + 1. -/
theorem shapeUpSeConv (c b D H W : Nat) (hD : 1 ≤ D) (hH : 1 ≤ H) (hW : 1 ≤ W) :
    forwardShape (seConvInit c c 3 2 1 true 0 wnOrder) ⟨b, c, D, H, W⟩
      = Except.ok ⟨b, c, 2 * D + 1, 2 * H + 1, 2 * W + 1⟩ := by
  rw [forwardShape_wn _ (by rfl)]
  rw [show (seConvInit c c 3 2 1 true 0 wnOrder).w
      = WeightCall.se c c 2 1 (some ⟨true, c, c, 3, 2, 0, 1, 1⟩) from rfl]
  rw [show (seConvInit c c 3 2 1 true 0 wnOrder).norm
      = some ⟨normGroups c, c⟩ from rfl]
  rw [weightShape_se, seShape_stride2 c c 2 (by omega) _ _ rfl rfl]
  rw [convLayerShape_ok _ _ (2 * D + 1) (2 * H + 1) (2 * W + 1) (by norm_num) rfl
      (by simpa using convT3dOutDim_up D hD)
      (by simpa using convT3dOutDim_up H hH)
      (by simpa using convT3dOutDim_up W hW)]
  simp [normShape]

theorem exBind_ok_inv {A B : Type} (e : Except String A) (f : A → Except String B)
    (r : B) (h : exBind e f = Except.ok r) : ∃ y, e = Except.ok y ∧ f y = Except.ok r := by
  cases e with
  | ok y => exact ⟨y, rfl, h⟩
  | error m => simp [exBind] at h

theorem normShape_inv (cfg : GroupNormCfg) (s r : Shape5)
    (h : normShape cfg s = Except.ok r) : r = s := by
  unfold normShape at h
  split at h
  · simp only [Except.ok.injEq] at h
    exact h.symm
  · simp at h

theorem normStage_inv (nm : Option GroupNormCfg) (y r : Shape5)
    (h : optAppE (Option.map (fun cfg t => normShape cfg t) nm) y = Except.ok r) :
    r = y := by
  cases nm with
  | none =>
    simp only [Option.map_none', optAppE_none, Except.ok.injEq] at h
    exact h.symm
  | some cfg => exact normShape_inv cfg y r h

theorem convLayerShape_channels (L : ConvLayer) (s r : Shape5)
    (h : convLayerShape L s = Except.ok r) :
    r.batch = s.batch ∧ r.channels = L.out_channels := by
  simp only [convLayerShape] at h
  split at h
  · split at h
    · simp only [Except.ok.injEq] at h
      subst h
      exact ⟨rfl, rfl⟩
    · simp at h
  · simp at h

theorem poolShape_channels (k st : Nat) (s r : Shape5)
    (h : poolShape k st s = Except.ok r) :
    r.batch = s.batch ∧ r.channels = s.channels := by
  simp only [poolShape] at h
  split at h
  · simp only [Except.ok.injEq] at h
    subst h
    exact ⟨rfl, rfl⟩
  · simp at h

theorem seShape_stride1_inv (i o st : Nat) (hst : ¬ 2 ≤ st) (conv : Option ConvLayer)
    (s r : Shape5) (h : seShape i o st conv s = Except.ok r) : r = s := by
  simp only [seShape] at h
  repeat' split at h
  all_goals first
    | (simp only [Except.ok.injEq] at h; exact h.symm)
    | (exact absurd (by assumption) hst)
    | simp at h

theorem seShape_stride2_inv (i o st : Nat) (hst : 2 ≤ st) (L : ConvLayer)
    (s r : Shape5) (h : seShape i o st (some L) s = Except.ok r) :
    convLayerShape L s = Except.ok r := by
  simp only [seShape] at h
  repeat' split at h
  all_goals first
    | exact h
    | (exact absurd hst (by assumption))
    | simp at h

theorem lookupMemPair {β : Type} (a : String) (l : List (String × β)) (b : β)
    (h : List.lookup a l = some b) : ∃ k, (k, b) ∈ l := by
  induction l with
  | nil => simp [List.lookup] at h
  | cons e tl ih =>
    obtain ⟨k, v⟩ := e
    simp only [List.lookup] at h
    by_cases hk : (a == k) = true
    · rw [hk] at h
      simp only [Option.some.injEq] at h
      subst h
      exact ⟨k, List.mem_cons_self _ _⟩
    · rw [Bool.not_eq_true] at hk
      rw [hk] at h
      obtain ⟨k2, hk2⟩ := ih h
      exact ⟨k2, List.mem_cons_of_mem _ hk2⟩

theorem opsGet_identity (c s : Nat) :
    opsGet "identity" c s = Except.ok (identityOpInit c c wnaOrder) := rfl

theorem opsGet_se_conv (c s : Nat) :
    opsGet "se_conv" c s = Except.ok (seConvInit c c 3 1 1 false 0 wnOrder) := rfl

theorem opsGet_dil_conv (c s : Nat) :
    opsGet "dil_conv" c s = Except.ok (convOpsInit c c 3 1 2 false false 0 wnaOrder) := rfl

theorem opsGet_dep_conv (c s : Nat) :
    opsGet "dep_conv" c s = Except.ok (convOpsInit c c 3 1 1 false true 0 wnaOrder) := rfl

theorem opsGet_conv (c s : Nat) :
    opsGet "conv" c s = Except.ok (convOpsInit c c 3 1 1 false false 0 wnaOrder) := rfl

theorem opsGet_avg_pool (c s : Nat) :
    opsGet "avg_pool" c s = poolingInitDefault c c avgStr := rfl

theorem opsGet_max_pool (c s : Nat) :
    opsGet "max_pool" c s = poolingInitDefault c c maxStr := rfl

theorem opsGet_down_se_conv (c s : Nat) :
    opsGet "down_se_conv" c s = Except.ok (seConvInit c c 3 2 1 false 0 wnOrder) := rfl

theorem opsGet_down_dil_conv (c s : Nat) :
    opsGet "down_dil_conv" c s = Except.ok (convOpsInit c c 3 2 2 false false 0 wnaOrder) := rfl

theorem opsGet_down_dep_conv (c s : Nat) :
    opsGet "down_dep_conv" c s = Except.ok (convOpsInit c c 3 2 1 false true 0 wnaOrder) := rfl

theorem opsGet_down_conv (c s : Nat) :
    opsGet "down_conv" c s = Except.ok (convOpsInit c c 3 2 1 false false 0 wnaOrder) := rfl

theorem opsGet_up_se_conv (c s : Nat) :
    opsGet "up_se_conv" c s = Except.ok (seConvInit c c 3 2 1 true 0 wnOrder) := rfl

theorem opsGet_up_dep_conv (c s : Nat) :
    opsGet "up_dep_conv" c s = Except.ok (convOpsInit c c 3 2 1 true true 0 wnaOrder) := rfl

theorem opsGet_up_conv (c s : Nat) :
    opsGet "up_conv" c s = Except.ok (convOpsInit c c 3 2 1 true false 0 wnaOrder) := rfl

theorem opsGet_up_dil_conv (c s : Nat) :
    opsGet "up_dil_conv" c s = Except.ok (convOpsInit c c 3 2 2 true false 0 wnaOrder) := rfl

/-- Every successful registry lookup and factory call yields one of the
fifteen concrete operation configurations, each with both channel arguments
equal to the requested channel count. -/
theorem opsGet_ok_cases (n : String) (c s : Nat) (op : Operation)
    (h : opsGet n c s = Except.ok op) :
    op ∈ [identityOpInit c c wnaOrder,
      seConvInit c c 3 1 1 false 0 wnOrder,
      convOpsInit c c 3 1 2 false false 0 wnaOrder,
      convOpsInit c c 3 1 1 false true 0 wnaOrder,
      convOpsInit c c 3 1 1 false false 0 wnaOrder,
      baseInit c c 0 wOrder (WeightCall.pooling 2 2 PoolType.avg),
      baseInit c c 0 wOrder (WeightCall.pooling 2 2 PoolType.max),
      seConvInit c c 3 2 1 false 0 wnOrder,
      convOpsInit c c 3 2 2 false false 0 wnaOrder,
      convOpsInit c c 3 2 1 false true 0 wnaOrder,
      convOpsInit c c 3 2 1 false false 0 wnaOrder,
      seConvInit c c 3 2 1 true 0 wnOrder,
      convOpsInit c c 3 2 1 true true 0 wnaOrder,
      convOpsInit c c 3 2 1 true false 0 wnaOrder,
      convOpsInit c c 3 2 2 true false 0 wnaOrder] := by
  unfold opsGet at h
  cases hl : List.lookup n OPS with
  | none => rw [hl] at h; simp at h
  | some f =>
    rw [hl] at h
    obtain ⟨k, hk⟩ := lookupMemPair n OPS f hl
    fin_cases hk
    all_goals first
      | (simp only [Except.ok.injEq] at h; subst h; simp)
      | (simp [poolingInitDefault, poolingInit, avgStr, maxStr] at h; subst h; simp)

theorem channels_of_pipeline (op : Operation) (s r : Shape5)
    (h : forwardShape op s = Except.ok r)
    (hpipe : forwardShape op s = exBind (weightShape op.w s)
      (optAppE (Option.map (fun cfg t => normShape cfg t) op.norm))) :
    ∃ y, weightShape op.w s = Except.ok y ∧ r = y := by
  rw [hpipe] at h
  obtain ⟨y, hy, hr⟩ := exBind_ok_inv _ _ _ h
  exact ⟨y, hy, normStage_inv _ _ _ hr⟩

theorem depthSep_channels (dL pL : ConvLayer) (s y : Shape5)
    (hy : weightShape (WeightCall.depthSep dL pL) s = Except.ok y) :
    y.batch = s.batch ∧ y.channels = pL.out_channels := by
  rw [weightShape_depthSep] at hy
  obtain ⟨z, hz, hzy⟩ := exBind_ok_inv _ _ _ hy
  obtain ⟨hb1, _⟩ := convLayerShape_channels _ _ _ hz
  obtain ⟨hb2, hc2⟩ := convLayerShape_channels _ _ _ hzy
  exact ⟨hb2.trans hb1, hc2⟩

/-- The names of the registry's pooling down operations, used to group the
amended shape statement. -/
def PoolDownOps : List String := ["avg_pool", "max_pool"]

/-- The names of the registry's convolutional down operations. -/
def ConvDownOps : List String :=
  ["down_se_conv", "down_dil_conv", "down_dep_conv", "down_conv"]

/-- C1 counterexample: the claim's advertised spatial transform fails on the
code. The up_conv factory, applied to a 5-D tensor with spatial dimensions
4, returns spatial dimensions 9, not the claimed 4 * 2 = 8; the down_conv
factory, applied to spatial dimensions 8, returns 3, not the claimed
8 / 2 = 4. -/
theorem c1_registry_shape_counterexample :
    exBind (opsGet "up_conv" 1 2) (fun op => forwardShape op ⟨1, 1, 4, 4, 4⟩)
      = Except.ok ⟨1, 1, 9, 9, 9⟩ ∧
    exBind (opsGet "down_conv" 1 2) (fun op => forwardShape op ⟨1, 1, 8, 8, 8⟩)
      = Except.ok ⟨1, 1, 3, 3, 3⟩ ∧
    (Shape5.mk 1 1 9 9 9 ≠ ⟨1, 1, 8, 8, 8⟩) ∧
    (Shape5.mk 1 1 3 3 3 ≠ ⟨1, 1, 4, 4, 4⟩) :=
  ⟨rfl, rfl, by decide, by decide⟩

/-- C1 amended: for every registry entry, the factory ignores its stride
argument, the output keeps the batch and channel count, and the spatial
transform is: identity and norm-ops keep each spatial dimension n; the two
pooling down-ops map n to n / 2 as claimed; the four convolutional down-ops
map n to (n - 1) / 2, which agrees with n / 2 only for odd n; and the four
up-ops map n to 2n + 1, not 2n. -/
theorem c1_registry_shape_amended :
    (∀ n ∈ NormOps, ∀ c s b D H W : Nat, 1 ≤ c → 1 ≤ D → 1 ≤ H → 1 ≤ W →
      exBind (opsGet n c s) (fun op => forwardShape op ⟨b, c, D, H, W⟩)
        = Except.ok ⟨b, c, D, H, W⟩) ∧
    (∀ n ∈ PoolDownOps, ∀ c s b D H W : Nat, 1 ≤ c → 2 ≤ D → 2 ≤ H → 2 ≤ W →
      exBind (opsGet n c s) (fun op => forwardShape op ⟨b, c, D, H, W⟩)
        = Except.ok ⟨b, c, D / 2, H / 2, W / 2⟩) ∧
    (∀ n ∈ ConvDownOps, ∀ c s b D H W : Nat, 1 ≤ c → 3 ≤ D → 3 ≤ H → 3 ≤ W →
      exBind (opsGet n c s) (fun op => forwardShape op ⟨b, c, D, H, W⟩)
        = Except.ok ⟨b, c, (D - 1) / 2, (H - 1) / 2, (W - 1) / 2⟩) ∧
    (∀ n ∈ UpOps, ∀ c s b D H W : Nat, 1 ≤ c → 1 ≤ D → 1 ≤ H → 1 ≤ W →
      exBind (opsGet n c s) (fun op => forwardShape op ⟨b, c, D, H, W⟩)
        = Except.ok ⟨b, c, 2 * D + 1, 2 * H + 1, 2 * W + 1⟩) := by
  refine ⟨?_, ?_, ?_, ?_⟩
  · intro n hname c s b D H W _hc hD hH hW
    simp only [NormOps, List.not_mem_nil, List.mem_cons, or_false] at hname
    rcases hname with rfl | rfl | rfl | rfl | rfl
    · rw [opsGet_identity, exBind_ok]
      exact shapeIdentity c b D H W
    · rw [opsGet_se_conv, exBind_ok]
      exact shapeSeConv c b D H W
    · rw [opsGet_dil_conv, exBind_ok]
      exact shapeDilConv c b D H W hD hH hW
    · rw [opsGet_dep_conv, exBind_ok]
      exact shapeDepConv c b D H W hD hH hW
    · rw [opsGet_conv, exBind_ok]
      exact shapeConv c b D H W hD hH hW
  · intro n hname c s b D H W _hc hD hH hW
    simp only [PoolDownOps, List.not_mem_nil, List.mem_cons, or_false] at hname
    rcases hname with rfl | rfl
    · rw [opsGet_avg_pool]
      exact shapeAvgPool c b D H W hD hH hW
    · rw [opsGet_max_pool]
      exact shapeMaxPool c b D H W hD hH hW
  · intro n hname c s b D H W _hc hD hH hW
    simp only [ConvDownOps, List.not_mem_nil, List.mem_cons, or_false] at hname
    rcases hname with rfl | rfl | rfl | rfl
    · rw [opsGet_down_se_conv, exBind_ok]
      exact shapeDownSeConv c b D H W hD hH hW
    · rw [opsGet_down_dil_conv, exBind_ok]
      exact shapeDownDilConv c b D H W hD hH hW
    · rw [opsGet_down_dep_conv, exBind_ok]
      exact shapeDownDepConv c b D H W hD hH hW
    · rw [opsGet_down_conv, exBind_ok]
      exact shapeDownConv c b D H W hD hH hW
  · intro n hname c s b D H W _hc hD hH hW
    simp only [UpOps, List.not_mem_nil, List.mem_cons, or_false] at hname
    rcases hname with rfl | rfl | rfl | rfl
    · rw [opsGet_up_se_conv, exBind_ok]
      exact shapeUpSeConv c b D H W hD hH hW
    · rw [opsGet_up_dep_conv, exBind_ok]
      exact shapeUpDepConv c b D H W hD hH hW
    · rw [opsGet_up_conv, exBind_ok]
      exact shapeUpConv c b D H W hD hH hW
    · rw [opsGet_up_dil_conv, exBind_ok]
      exact shapeUpDilConv c b D H W hD hH hW

/-- C1 amended, witness: the four groups of the amended statement evaluated
at one concrete entry each. -/
theorem c1_registry_shape_amended_witness :
    exBind (opsGet "conv" 2 7) (fun op => forwardShape op ⟨1, 2, 5, 6, 7⟩)
      = Except.ok ⟨1, 2, 5, 6, 7⟩ ∧
    exBind (opsGet "avg_pool" 2 7) (fun op => forwardShape op ⟨1, 2, 8, 9, 10⟩)
      = Except.ok ⟨1, 2, 4, 4, 5⟩ ∧
    exBind (opsGet "down_conv" 2 7) (fun op => forwardShape op ⟨1, 2, 9, 9, 9⟩)
      = Except.ok ⟨1, 2, 4, 4, 4⟩ ∧
    exBind (opsGet "up_conv" 2 7) (fun op => forwardShape op ⟨1, 2, 5, 5, 5⟩)
      = Except.ok ⟨1, 2, 11, 11, 11⟩ := by
  refine ⟨?_, ?_, ?_, ?_⟩
  · exact c1_registry_shape_amended.1 "conv" (by simp [NormOps]) 2 7 1 5 6 7
      (by omega) (by omega) (by omega) (by omega)
  · exact c1_registry_shape_amended.2.1 "avg_pool" (by simp [PoolDownOps]) 2 7 1 8 9 10
      (by omega) (by omega) (by omega) (by omega)
  · exact c1_registry_shape_amended.2.2.1 "down_conv" (by simp [ConvDownOps]) 2 7 1 9 9 9
      (by omega) (by omega) (by omega) (by omega)
  · exact c1_registry_shape_amended.2.2.2 "up_conv" (by simp [UpOps]) 2 7 1 5 5 5
      (by omega) (by omega) (by omega) (by omega)

/-- Running BaseOp.forward on the token list weight, norm, act is the
three-stage composition dropout-then-weight, then norm, then act. -/
theorem forwardLoop_wna_run {T : Type} (d : Option (T → T)) (wc : T → Except String T)
    (nm : Option (T → Except String T)) (a : Option (T → T)) (x : T) :
    forwardLoop d wc nm a [weightTok, normTok, actTok] x
      = exBind (wc (optApp d x))
          (fun y => exBind (optAppE nm y) (fun z => Except.ok (optApp a z))) := by
  rw [forwardLoop_weight_cons]
  refine exBind_congr _ _ _ (fun y => ?_)
  rw [forwardLoop_norm_cons]
  refine exBind_congr _ _ _ (fun z => ?_)
  rw [forwardLoop_act_cons, forwardLoop_nil]

/-- C2: with ops-order weight_norm_act the stages run in exactly the
declared order. First conjunct: for any stage functions, BaseOp.forward on
the token list weight, norm, act is dropout-then-weight, then norm, then
act. Second conjunct: for a ConvOps with in = out = 32 and stride 1, apply
is ReLU after GroupNorm(2 groups, 32 channels) after the convolution after
dropout (dropout applied only when the configured rate is positive), so the
normalization statistics are computed on the convolution output, never on
the raw input. -/
theorem c2_pipeline_order :
    (∀ (T : Type) (d : Option (T → T)) (wc : T → Except String T)
      (nm : Option (T → Except String T)) (a : Option (T → T)) (x : T),
      forwardLoop d wc nm a [weightTok, normTok, actTok] x
        = exBind (wc (optApp d x))
            (fun y => exBind (optAppE nm y) (fun z => Except.ok (optApp a z)))) ∧
    (∀ (rate : ℚ) (convEnv : ConvLayer → Tensor5 → Tensor5)
      (poolEnv : Nat → Nat → PoolType → Tensor5 → Tensor5)
      (seP : SELearn) (gn : GNLearn) (dropEnv : Tensor5 → Tensor5)
      (S : Shape5) (x : Tensor5),
      valueForward (convOpsInit 32 32 3 1 1 false false rate wnaOrder)
          convEnv poolEnv seP gn dropEnv S x
        = Except.ok (reluT (groupNormVal ⟨2, 32⟩ gn S
            (convEnv ⟨false, 32, 32, 3, 1, 1, 1, 1⟩
              (if 0 < rate then dropEnv x else x))))) := by
  refine ⟨fun T d wc nm a x => forwardLoop_wna_run d wc nm a x, ?_⟩
  intro rate convEnv poolEnv seP gn dropEnv S x
  unfold valueForward
  rw [show (convOpsInit 32 32 3 1 1 false false rate wnaOrder).ops_list
      = [weightTok, normTok, actTok] from rfl]
  rw [forwardLoop_wna_run]
  rw [show (convOpsInit 32 32 3 1 1 false false rate wnaOrder).w
      = WeightCall.single ⟨false, 32, 32, 3, 1, 1, 1, 1⟩ from rfl]
  rw [show (convOpsInit 32 32 3 1 1 false false rate wnaOrder).norm
      = some ⟨2, 32⟩ from rfl]
  rw [show (convOpsInit 32 32 3 1 1 false false rate wnaOrder).activation
      = true from rfl]
  rw [show (convOpsInit 32 32 3 1 1 false false rate wnaOrder).dropout_some
      = decide (0 < rate) from rfl]
  by_cases hr : 0 < rate
  · simp [weightVal, optApp, optAppE, exBind, hr]
  · simp [weightVal, optApp, optAppE, exBind, hr]

/-- C3: every SEConvOp built with stride 1 has its norm module disabled, for
any ops-order string (including ones containing the norm token), and its
apply preserves the full 5-D shape of any input with the configured channel
count whenever the ops-order uses only recognized tokens. -/
theorem c3_seconv_stride1 :
    ∀ (c k d : Nat) (ut : Bool) (rate : ℚ) (ops_order : String),
      (seConvInit c c k 1 d ut rate ops_order).norm = none ∧
      ((∀ t ∈ opsListOf ops_order, t = weightTok ∨ t = normTok ∨ t = actTok) →
        ∀ b D H W : Nat,
          forwardShape (seConvInit c c k 1 d ut rate ops_order) ⟨b, c, D, H, W⟩
            = Except.ok ⟨b, c, D, H, W⟩) := by
  intro c k d ut rate ops_order
  constructor
  · rfl
  · intro hgood b D H W
    unfold forwardShape
    refine forwardLoop_fix _ _ _ _ _ (optApp_id_if _ _) ?_ ?_ (optApp_id_if _ _) _ ?_
    · rw [show (seConvInit c c k 1 d ut rate ops_order).w
          = WeightCall.se c c 1 1 none from rfl]
      rw [weightShape_se]
      exact seShape_stride1 c c 1 (by omega) none _ rfl rfl
    · rw [show (seConvInit c c k 1 d ut rate ops_order).norm = none from rfl]
      simp
    · exact hgood

/-- C3 witness: the theorem applied to an SEConvOp with 16 channels, stride
1, and its default ops-order weight_norm. -/
theorem c3_seconv_stride1_witness :
    (seConvInit 16 16 3 1 1 false 0 wnOrder).norm = none ∧
    forwardShape (seConvInit 16 16 3 1 1 false 0 wnOrder) ⟨2, 16, 4, 5, 6⟩
      = Except.ok ⟨2, 16, 4, 5, 6⟩ := by
  refine ⟨(c3_seconv_stride1 16 3 1 false 0 wnOrder).1, ?_⟩
  exact (c3_seconv_stride1 16 3 1 false 0 wnOrder).2 (by decide) 2 4 5 6

/-- C4: any operation whose ops token list contains a token other than
weight, norm and act raises on apply: its forward run returns the
unrecognized-op error whatever the input tensor, so the configuration error
is surfaced on the first apply, never silently ignored. -/
theorem c4_unrecognized_token (op : Operation) (t : String)
    (ht : t ∈ op.ops_list) (h1 : t ≠ weightTok) (h2 : t ≠ normTok) (h3 : t ≠ actTok)
    (convEnv : ConvLayer → Tensor5 → Tensor5)
    (poolEnv : Nat → Nat → PoolType → Tensor5 → Tensor5)
    (seP : SELearn) (gn : GNLearn) (dropEnv : Tensor5 → Tensor5)
    (S : Shape5) (x : Tensor5) :
    ∃ m, valueForward op convEnv poolEnv seP gn dropEnv S x = Except.error m := by
  unfold valueForward
  refine forwardLoop_error_of_bad _ _ _ _ ?_ ?_ op.ops_list t ht h1 h2 h3 x
  · intro y
    exact ⟨_, rfl⟩
  · intro y
    cases hn : op.norm with
    | none => exact ⟨y, by simp [hn]⟩
    | some cfg => exact ⟨groupNormVal cfg gn S y, by simp [hn]⟩

/-- Example ops-order string with an unrecognized second token. -/
def wfooOrder : String := "weight_foo"

/-- C4 witness: a ConvOps configured with ops-order weight_foo raises on
apply at a concrete input. -/
theorem c4_unrecognized_token_witness :
    ∃ m, valueForward (convOpsInit 32 32 3 1 1 false false 0 wfooOrder)
      (fun _ x => x) (fun _ _ _ x => x)
      ⟨fun _ => 0, 0, fun _ => 0, fun _ => 0⟩ ⟨fun _ => 1, fun _ => 0, 1⟩
      (fun x => x) ⟨1, 32, 1, 1, 1⟩ (fun _ _ _ _ _ => 0) = Except.error m := by
  exact c4_unrecognized_token (convOpsInit 32 32 3 1 1 false false 0 wfooOrder)
    "foo" (by decide) (by decide) (by decide) (by decide) _ _ _ _ _ _ _

/-- C5: whenever the ops-order enables normalization, BaseOp chooses
out_channels / 16 groups when 16 divides out_channels and 1 group
otherwise; in particular 48 channels give 3 groups and 20 channels give 1
group. -/
theorem c5_norm_groups :
    (∀ (in_c out_c : Nat) (rate : ℚ) (ops_order : String) (w : WeightCall),
      normTok ∈ opsListOf ops_order →
      (baseInit in_c out_c rate ops_order w).norm
        = some ⟨(if 16 ∣ out_c then out_c / 16 else 1), out_c⟩) ∧
    (baseInit 17 48 0 wnaOrder WeightCall.idw).norm = some ⟨3, 48⟩ ∧
    (baseInit 17 20 0 wnaOrder WeightCall.idw).norm = some ⟨1, 20⟩ := by
  refine ⟨?_, rfl, rfl⟩
  intro i o rate oo w hmem
  rw [baseInit_norm, if_pos hmem]
  by_cases hm : o % 16 = 0
  · have h16 : 16 ∣ o := by omega
    simp [normGroups, hm, h16]
  · have h16 : ¬ 16 ∣ o := by omega
    simp [normGroups, hm, h16]

/-- C5 witness: the general statement applied at 48 output channels. -/
theorem c5_norm_groups_witness :
    (baseInit 48 48 0 wnaOrder WeightCall.idw).norm = some ⟨3, 48⟩ :=
  (c5_norm_groups.1 48 48 0 wnaOrder WeightCall.idw (by decide)).trans (by decide)

/-- C6: PoolingOp with its default kernel 2 and stride 2 constructs
successfully for the pool types avg and max, with the corresponding pooling
weight-transform, and raises NotImplementedError for every other pool type
string. -/
theorem c6_pooling_type :
    ∀ in_c out_c : Nat,
      (∃ op, poolingInitDefault in_c out_c avgStr = Except.ok op ∧
        op.w = WeightCall.pooling 2 2 PoolType.avg) ∧
      (∃ op, poolingInitDefault in_c out_c maxStr = Except.ok op ∧
        op.w = WeightCall.pooling 2 2 PoolType.max) ∧
      (∀ pt : String, pt ≠ avgStr → pt ≠ maxStr →
        poolingInit in_c out_c pt 2 2 wOrder = Except.error notImplementedMsg) := by
  intro i o
  refine ⟨⟨baseInit i o 0 wOrder (WeightCall.pooling 2 2 PoolType.avg), rfl, rfl⟩,
    ⟨baseInit i o 0 wOrder (WeightCall.pooling 2 2 PoolType.max), rfl, rfl⟩, ?_⟩
  intro pt h1 h2
  unfold poolingInit
  rw [if_neg h1, if_neg h2]

/-- Example pool type string outside the supported set. -/
def otherPool : String := "boo"

/-- C6 witness: the unsupported pool type branch at a concrete string. -/
theorem c6_pooling_type_witness :
    poolingInit 3 5 otherPool 2 2 wOrder = Except.error notImplementedMsg :=
  (c6_pooling_type 3 5).2.2 otherPool (by decide) (by decide)

/-- Sigmoid outputs are nonnegative. -/
theorem sigmoidR_nonneg (t : ℝ) : 0 ≤ sigmoidR t := by
  unfold sigmoidR
  positivity

/-- Sigmoid outputs are at most one. -/
theorem sigmoidR_le_one (t : ℝ) : sigmoidR t ≤ 1 := by
  unfold sigmoidR
  rw [div_le_one (by positivity)]
  linarith [Real.exp_pos (-t)]

/-- Hidden width of the squeeze-excitation bottleneck, when the
weight-transform is the squeeze-excitation one. -/
def seHidden : WeightCall → Option Nat
  | WeightCall.se _ _ _ fh _ => some fh
  | _ => none

/-- C7: for every SEConvOp, the bottleneck's hidden layer has exactly one
unit whatever the channel count; the weight-transform multiplies the input
channel-wise by the gate (and, only with stride at least 2, convolves the
gated tensor); and the gate is the sigmoid of the bottleneck applied to the
global spatial average of each channel, hence always within the interval
from 0 to 1. -/
theorem c7_se_weight_transform :
    ∀ (in_c out_c k st d : Nat) (ut : Bool) (rate : ℚ) (oo : String)
      (seP : SELearn) (convEnv : ConvLayer → Tensor5 → Tensor5)
      (poolEnv : Nat → Nat → PoolType → Tensor5 → Tensor5)
      (S : Shape5) (x : Tensor5),
      seHidden (seConvInit in_c out_c k st d ut rate oo).w = some 1 ∧
      weightVal (seConvInit in_c out_c k st d ut rate oo).w convEnv poolEnv seP S x
        = (if 2 ≤ st then
            convEnv ⟨ut, in_c, out_c, k, st, pad2 (d : Int) (k : Int) (st : Int), 1, 1⟩
              (fun b ch dd hh ww => x b ch dd hh ww * seGate in_c seP S x b ch)
          else (fun b ch dd hh ww => x b ch dd hh ww * seGate in_c seP S x b ch)) ∧
      (∀ b ch, seGate in_c seP S x b ch
          = sigmoidR (seP.w2 ch * reluR (Finset.sum (Finset.range in_c)
              (fun j => seP.w1 j * (sum3 S.depth S.height S.width
                (fun dd hh ww => x b j dd hh ww)
                / ((S.depth * S.height * S.width : Nat) : ℝ))) + seP.b1)
            + seP.b2 ch) ∧
        0 ≤ seGate in_c seP S x b ch ∧ seGate in_c seP S x b ch ≤ 1) := by
  intro in_c out_c k st d ut rate oo seP convEnv poolEnv S x
  refine ⟨?_, ?_, fun b ch => ⟨rfl, sigmoidR_nonneg _, sigmoidR_le_one _⟩⟩
  · by_cases h2 : 2 ≤ st <;> simp [seConvInit, seHidden, h2]
  · by_cases h2 : 2 ≤ st <;> simp [seConvInit, weightVal, seWeightVal, h2]

/-- C8: registry names are unique; the DownOps, UpOps and NormOps lists are
duplicate-free and pairwise disjoint, and every listed name is a registry
key. -/
theorem c8_registry_partitions :
    (OPS.map Prod.fst).Nodup ∧
    DownOps.Nodup ∧ UpOps.Nodup ∧ NormOps.Nodup ∧
    (∀ n ∈ DownOps, n ∉ UpOps) ∧ (∀ n ∈ DownOps, n ∉ NormOps) ∧
    (∀ n ∈ UpOps, n ∉ NormOps) ∧
    (∀ n ∈ DownOps, n ∈ OPS.map Prod.fst) ∧
    (∀ n ∈ UpOps, n ∈ OPS.map Prod.fst) ∧
    (∀ n ∈ NormOps, n ∈ OPS.map Prod.fst) := by decide

/-- For a positive channel count the channels-per-group count of the chosen
GroupNorm configuration is positive. -/
theorem cpg_pos (m : Nat) : 1 ≤ (m + 1) / normGroups (m + 1) := by
  unfold normGroups
  by_cases h : (m + 1) % 16 = 0
  · rw [if_neg (by omega)]
    have h16 : (16 : Nat) ∣ m + 1 := by omega
    have hge : 16 ≤ m + 1 := Nat.le_of_dvd (by omega) h16
    have hpos : 0 < (m + 1) / 16 := Nat.div_pos hge (by omega)
    have hle : (m + 1) / 16 ≤ m + 1 := Nat.div_le_self _ _
    exact (Nat.one_le_div_iff hpos).mpr hle
  · rw [if_pos h]
    simp

/-- GroupNorm of a spatially trivial constant tensor at channel 0: the group
mean equals the constant, so the normalized value collapses to the beta
parameter of channel 0. -/
theorem groupNormVal_const_eval (m : Nat) (gn : GNLearn) (v : ℝ) :
    groupNormVal ⟨normGroups (m + 1), m + 1⟩ gn ⟨1, m + 1, 1, 1, 1⟩
      (fun _ _ _ _ _ => v) 0 0 0 0 0 = gn.beta 0 := by
  have hcpg : 1 ≤ (m + 1) / normGroups (m + 1) := cpg_pos m
  have hne : (((m + 1) / normGroups (m + 1) : Nat) : ℝ) ≠ 0 :=
    Nat.cast_ne_zero.mpr (by omega)
  unfold groupNormVal sum3
  simp only [Finset.sum_range_one, Finset.sum_const, Finset.card_range,
    nsmul_eq_mul, Nat.zero_div, mul_one, Nat.cast_one, one_mul, Nat.cast_mul]
  rw [mul_div_cancel_left₀ v hne]
  simp

/-- C10: the identity registry entry builds IdentityOp with the default
ops-order weight_norm_act; its apply is ReLU after GroupNorm of the raw
input (the weight stage alone is a pass-through), and for every positive
channel count there is an input that apply does not return unchanged,
whatever the learnable parameters. -/
theorem c10_identity_entry :
    (∀ c s : Nat, opsGet "identity" c s = Except.ok (identityOpInit c c wnaOrder)) ∧
    (∀ c : Nat, (identityOpInit c c wnaOrder).ops_list = [weightTok, normTok, actTok]) ∧
    (∀ (c : Nat) (convEnv : ConvLayer → Tensor5 → Tensor5)
      (poolEnv : Nat → Nat → PoolType → Tensor5 → Tensor5)
      (seP : SELearn) (gn : GNLearn) (dropEnv : Tensor5 → Tensor5)
      (S : Shape5) (x : Tensor5),
      valueForward (identityOpInit c c wnaOrder) convEnv poolEnv seP gn dropEnv S x
        = Except.ok (reluT (groupNormVal ⟨normGroups c, c⟩ gn S x))) ∧
    (∀ (m : Nat) (convEnv : ConvLayer → Tensor5 → Tensor5)
      (poolEnv : Nat → Nat → PoolType → Tensor5 → Tensor5)
      (seP : SELearn) (gn : GNLearn) (dropEnv : Tensor5 → Tensor5),
      ∃ x y : Tensor5,
        valueForward (identityOpInit (m + 1) (m + 1) wnaOrder) convEnv poolEnv seP gn
          dropEnv ⟨1, m + 1, 1, 1, 1⟩ x = Except.ok y ∧ y ≠ x) := by
  have h3 : ∀ (c : Nat) (convEnv : ConvLayer → Tensor5 → Tensor5)
      (poolEnv : Nat → Nat → PoolType → Tensor5 → Tensor5)
      (seP : SELearn) (gn : GNLearn) (dropEnv : Tensor5 → Tensor5)
      (S : Shape5) (x : Tensor5),
      valueForward (identityOpInit c c wnaOrder) convEnv poolEnv seP gn dropEnv S x
        = Except.ok (reluT (groupNormVal ⟨normGroups c, c⟩ gn S x)) := by
    intro c convEnv poolEnv seP gn dropEnv S x
    unfold valueForward
    rw [show (identityOpInit c c wnaOrder).ops_list
        = [weightTok, normTok, actTok] from rfl]
    rw [forwardLoop_wna_run]
    rw [show (identityOpInit c c wnaOrder).w = WeightCall.idw from rfl]
    rw [show (identityOpInit c c wnaOrder).norm = some ⟨normGroups c, c⟩ from rfl]
    rw [show (identityOpInit c c wnaOrder).activation = true from rfl]
    rw [show (identityOpInit c c wnaOrder).dropout_some = false from rfl]
    simp [weightVal, optApp, optAppE, exBind]
  refine ⟨fun c s => rfl, fun c => rfl, h3, ?_⟩
  intro m convEnv poolEnv seP gn dropEnv
  refine ⟨(fun _ _ _ _ _ => reluR (gn.beta 0) + 1),
    reluT (groupNormVal ⟨normGroups (m + 1), m + 1⟩ gn ⟨1, m + 1, 1, 1, 1⟩
      (fun _ _ _ _ _ => reluR (gn.beta 0) + 1)),
    h3 (m + 1) convEnv poolEnv seP gn dropEnv ⟨1, m + 1, 1, 1, 1⟩ _, ?_⟩
  intro heq
  have h0 : reluR (groupNormVal ⟨normGroups (m + 1), m + 1⟩ gn ⟨1, m + 1, 1, 1, 1⟩
      (fun _ _ _ _ _ => reluR (gn.beta 0) + 1) 0 0 0 0 0) = reluR (gn.beta 0) + 1 :=
    congrFun (congrFun (congrFun (congrFun (congrFun heq 0) 0) 0) 0) 0
  rw [groupNormVal_const_eval] at h0
  linarith [h0]

/-- C9: every registry factory ignores its stride argument (two calls with
different strides build the same operation, for every name including absent
ones), every successfully built operation is configured with in_channels
and out_channels both equal to the requested channel count, and whenever
its apply succeeds on a 5-D shape of that channel count the result keeps
the batch size and the channel count. -/
theorem c9_factories_ignore_stride :
    (∀ (n : String) (c s1 s2 : Nat), opsGet n c s1 = opsGet n c s2) ∧
    (∀ (n : String) (c s : Nat) (op : Operation), opsGet n c s = Except.ok op →
      op.in_channels = c ∧ op.out_channels = c) ∧
    (∀ (n : String) (c s : Nat) (op : Operation) (b D H W : Nat) (r : Shape5),
      opsGet n c s = Except.ok op →
      forwardShape op ⟨b, c, D, H, W⟩ = Except.ok r →
      r.batch = b ∧ r.channels = c) := by
  refine ⟨?_, ?_, ?_⟩
  · intro n c s1 s2
    unfold opsGet
    cases hl : List.lookup n OPS with
    | none => rfl
    | some f =>
      obtain ⟨k, hk⟩ := lookupMemPair n OPS f hl
      fin_cases hk <;> rfl
  · intro n c s op h
    have hmem := opsGet_ok_cases n c s op h
    fin_cases hmem
    all_goals exact ⟨rfl, rfl⟩
  · intro n c s op b D H W r h hf
    have hmem := opsGet_ok_cases n c s op h
    fin_cases hmem
    · obtain ⟨y, hy, rfl⟩ := channels_of_pipeline _ _ _ hf (forwardShape_wna _ rfl _)
      rw [show (identityOpInit c c wnaOrder).w = WeightCall.idw from rfl,
        weightShape_idw] at hy
      simp only [Except.ok.injEq] at hy
      subst hy
      exact ⟨rfl, rfl⟩
    · obtain ⟨y, hy, rfl⟩ := channels_of_pipeline _ _ _ hf (forwardShape_wn _ rfl _)
      rw [show (seConvInit c c 3 1 1 false 0 wnOrder).w
          = WeightCall.se c c 1 1 none from rfl, weightShape_se] at hy
      have hs := seShape_stride1_inv c c 1 (by omega) none _ _ hy
      subst hs
      exact ⟨rfl, rfl⟩
    · obtain ⟨y, hy, rfl⟩ := channels_of_pipeline _ _ _ hf (forwardShape_wna _ rfl _)
      rw [show (convOpsInit c c 3 1 2 false false 0 wnaOrder).w
          = WeightCall.single ⟨false, c, c, 3, 1, 2, 2, 1⟩ from rfl,
        weightShape_single] at hy
      exact convLayerShape_channels _ _ _ hy
    · obtain ⟨y, hy, rfl⟩ := channels_of_pipeline _ _ _ hf (forwardShape_wna _ rfl _)
      rw [show (convOpsInit c c 3 1 1 false true 0 wnaOrder).w
          = WeightCall.depthSep ⟨false, c, c, 3, 1, 1, 1, c⟩
              ⟨false, c, c, 1, 1, 0, 1, 1⟩ from rfl] at hy
      exact depthSep_channels _ _ _ _ hy
    · obtain ⟨y, hy, rfl⟩ := channels_of_pipeline _ _ _ hf (forwardShape_wna _ rfl _)
      rw [show (convOpsInit c c 3 1 1 false false 0 wnaOrder).w
          = WeightCall.single ⟨false, c, c, 3, 1, 1, 1, 1⟩ from rfl,
        weightShape_single] at hy
      exact convLayerShape_channels _ _ _ hy
    · rw [forwardShape_w _ rfl] at hf
      exact poolShape_channels _ _ _ _ hf
    · rw [forwardShape_w _ rfl] at hf
      exact poolShape_channels _ _ _ _ hf
    · obtain ⟨y, hy, rfl⟩ := channels_of_pipeline _ _ _ hf (forwardShape_wn _ rfl _)
      rw [show (seConvInit c c 3 2 1 false 0 wnOrder).w
          = WeightCall.se c c 2 1 (some ⟨false, c, c, 3, 2, 0, 1, 1⟩) from rfl,
        weightShape_se] at hy
      exact convLayerShape_channels _ _ _ (seShape_stride2_inv c c 2 (by omega) _ _ _ hy)
    · obtain ⟨y, hy, rfl⟩ := channels_of_pipeline _ _ _ hf (forwardShape_wna _ rfl _)
      rw [show (convOpsInit c c 3 2 2 false false 0 wnaOrder).w
          = WeightCall.single ⟨false, c, c, 3, 2, 1, 2, 1⟩ from rfl,
        weightShape_single] at hy
      exact convLayerShape_channels _ _ _ hy
    · obtain ⟨y, hy, rfl⟩ := channels_of_pipeline _ _ _ hf (forwardShape_wna _ rfl _)
      rw [show (convOpsInit c c 3 2 1 false true 0 wnaOrder).w
          = WeightCall.depthSep ⟨false, c, c, 3, 2, 0, 1, c⟩
              ⟨false, c, c, 1, 1, 0, 1, 1⟩ from rfl] at hy
      exact depthSep_channels _ _ _ _ hy
    · obtain ⟨y, hy, rfl⟩ := channels_of_pipeline _ _ _ hf (forwardShape_wna _ rfl _)
      rw [show (convOpsInit c c 3 2 1 false false 0 wnaOrder).w
          = WeightCall.single ⟨false, c, c, 3, 2, 0, 1, 1⟩ from rfl,
        weightShape_single] at hy
      exact convLayerShape_channels _ _ _ hy
    · obtain ⟨y, hy, rfl⟩ := channels_of_pipeline _ _ _ hf (forwardShape_wn _ rfl _)
      rw [show (seConvInit c c 3 2 1 true 0 wnOrder).w
          = WeightCall.se c c 2 1 (some ⟨true, c, c, 3, 2, 0, 1, 1⟩) from rfl,
        weightShape_se] at hy
      exact convLayerShape_channels _ _ _ (seShape_stride2_inv c c 2 (by omega) _ _ _ hy)
    · obtain ⟨y, hy, rfl⟩ := channels_of_pipeline _ _ _ hf (forwardShape_wna _ rfl _)
      rw [show (convOpsInit c c 3 2 1 true true 0 wnaOrder).w
          = WeightCall.depthSep ⟨true, c, c, 3, 2, 0, 1, c⟩
              ⟨false, c, c, 1, 1, 0, 1, 1⟩ from rfl] at hy
      exact depthSep_channels _ _ _ _ hy
    · obtain ⟨y, hy, rfl⟩ := channels_of_pipeline _ _ _ hf (forwardShape_wna _ rfl _)
      rw [show (convOpsInit c c 3 2 1 true false 0 wnaOrder).w
          = WeightCall.single ⟨true, c, c, 3, 2, 0, 1, 1⟩ from rfl,
        weightShape_single] at hy
      exact convLayerShape_channels _ _ _ hy
    · obtain ⟨y, hy, rfl⟩ := channels_of_pipeline _ _ _ hf (forwardShape_wna _ rfl _)
      rw [show (convOpsInit c c 3 2 2 true false 0 wnaOrder).w
          = WeightCall.single ⟨true, c, c, 3, 2, 1, 2, 1⟩ from rfl,
        weightShape_single] at hy
      exact convLayerShape_channels _ _ _ hy

/-- C9 witness: stride-independence, channel configuration and channel
preservation checked at the conv entry with 3 channels and two different
stride arguments. -/
theorem c9_factories_ignore_stride_witness :
    opsGet "conv" 3 0 = opsGet "conv" 3 9 ∧
    ((convOpsInit 3 3 3 1 1 false false 0 wnaOrder).in_channels = 3 ∧
      (convOpsInit 3 3 3 1 1 false false 0 wnaOrder).out_channels = 3) ∧
    ((Shape5.mk 2 3 5 5 5).batch = 2 ∧ (Shape5.mk 2 3 5 5 5).channels = 3) := by
  refine ⟨c9_factories_ignore_stride.1 "conv" 3 0 9, ?_, ?_⟩
  · exact c9_factories_ignore_stride.2.1 "conv" 3 0
      (convOpsInit 3 3 3 1 1 false false 0 wnaOrder) rfl
  · exact c9_factories_ignore_stride.2.2 "conv" 3 0
      (convOpsInit 3 3 3 1 1 false false 0 wnaOrder) 2 5 5 5 ⟨2, 3, 5, 5, 5⟩ rfl
      (shapeConv 3 2 5 5 5 (by omega) (by omega) (by omega))
